import Mathlib

/-!
Verification of the special-token-aware BPE tokenizer wrapper
`GPTNeoXTokenizer` (file `keras_nlp/models/gpt_neo_x/gpt_neo_x_tokenizer.py`
of the keras-nlp repository) against its specification.

The wrapper subclasses the generic `BytePairTokenizer` engine.  The engine
itself is not part of the excerpt, so it is modelled from the spec
(sections 2, 3 and 6): a vocabulary is a token-to-id mapping supplied
in memory or as an external file reference resolved at construction time;
merges are an ordered list of rules, each rule two entities separated by a
space; the engine keeps an unsplittable-token set, exposes `TokenToId`,
`GetVocabulary`, `Tokenize` and a configuration record.  The wrapper code
(constructor validation, derived special-token-id fields, `get_config`)
is translated directly from the source file.
-/

/-- Modelled from the spec: a vocabulary source is either an in-memory
token-to-id mapping or an external file reference; a file reference is
resolved (read once) at construction time, so the model carries the mapping
the file holds (spec section 3, Vocabulary; section 5, load once). -/
inductive VocabSource where
  | mem (mapping : List (String × Nat))
  | file (path : String) (contents : List (String × Nat))
deriving DecidableEq

/-- The mapping a vocabulary source denotes once resolved. -/
def VocabSource.resolve : VocabSource → List (String × Nat)
  | .mem m => m
  | .file _ c => c

/-- Modelled from the spec: merges are an ordered list of merge-rule strings,
in memory or behind a file reference resolved at construction
(spec section 3, Merge Rule List; section 6). -/
inductive MergesSource where
  | mem (rules : List String)
  | file (path : String) (contents : List String)
deriving DecidableEq

/-- The rule list a merges source denotes once resolved. -/
def MergesSource.resolve : MergesSource → List String
  | .mem r => r
  | .file _ c => c

/-- Modelled from the spec: every merge rule contains two merge entities
separated by a single space (spec section 6); malformed rules denote no
merge. -/
def parseMergeRule (rule : String) : Option (String × String) :=
  match rule.splitOn " " with
  | [a, b] => some (a, b)
  | _ => none

/-- A word split into one-character pieces, the starting state of BPE. -/
def charPieces (w : String) : List String :=
  w.toList.map Char.toString

/-- Merge the first occurrence of the adjacent pair `p` in a piece list. -/
def applyMerge (p : String × String) : List String → List String
  | [] => []
  | [x] => [x]
  | x :: y :: rest =>
    if x = p.1 && y = p.2 then (x ++ y) :: rest
    else x :: applyMerge p (y :: rest)

/-- Whether the adjacent pair `p` occurs in a piece list. -/
def hasPair (p : String × String) : List String → Bool
  | x :: y :: rest => (x = p.1 && y = p.2) || hasPair p (y :: rest)
  | _ => false

/-- Modelled from the spec: BPE iteratively merges adjacent symbol pairs,
earlier rules in the priority list applied first (spec glossary and
section 3); fuel bounds the iteration, each step shortens the list. -/
def bpeLoop (merges : List (String × String)) : Nat → List String → List String
  | 0, pieces => pieces
  | fuel + 1, pieces =>
    match merges.find? (fun p => hasPair p pieces) with
    | none => pieces
    | some p => bpeLoop merges fuel (applyMerge p pieces)

/-- Modelled from the spec: the generic BPE engine `BytePairTokenizer` is an
external collaborator not in the excerpt; it is constructed from a
vocabulary, merges, an unsplittable-token set and engine-level options
(spec sections 2 and 6). -/
structure BytePairTokenizer where
  vocabulary : VocabSource
  merges : MergesSource
  unsplittable_tokens : List String
  options : List (String × String)
deriving DecidableEq

/-- Modelled from the spec: `GetVocabulary` returns the token-to-id mapping
(spec section 6). -/
def BytePairTokenizer.get_vocabulary (t : BytePairTokenizer) : List (String × Nat) :=
  t.vocabulary.resolve

/-- Modelled from the spec: `TokenToId` looks a token up in the vocabulary;
a missing token is a lookup failure (spec section 6). -/
def BytePairTokenizer.token_to_id (t : BytePairTokenizer) (token : String) : Option Nat :=
  List.lookup token t.get_vocabulary

/-- The merge rules of the engine, parsed into entity pairs. -/
def BytePairTokenizer.mergeRules (t : BytePairTokenizer) : List (String × String) :=
  t.merges.resolve.filterMap parseMergeRule

/-- Modelled from the spec: tokenizing one word.  An unsplittable token is
emitted as a single unit and never subdivided (spec section 3 and glossary);
any other word is split into characters and merged per the rule list, each
final piece mapped through the vocabulary. -/
def BytePairTokenizer.tokenizeWord (t : BytePairTokenizer) (w : String) : List Nat :=
  if w ∈ t.unsplittable_tokens then (t.token_to_id w).toList
  else
    let pieces := bpeLoop t.mergeRules (charPieces w).length (charPieces w)
    pieces.filterMap t.token_to_id

/-- Modelled from the spec: `Tokenize` is a stateless pure function of the
immutable vocabulary, immutable merges and the input text (spec section 5);
text is processed word by word. -/
def BytePairTokenizer.tokenize (t : BytePairTokenizer) (text : String) : List Nat :=
  ((text.splitOn " ").map t.tokenizeWord).flatten

/-- Modelled from the spec: the reconstruction configuration record of the
engine, holding the vocabulary reference, the merges reference, the
unsplittable-token field (present unless deleted) and the engine-level
options (spec sections 4.1 and 6). -/
structure BPEConfig where
  vocabulary : VocabSource
  merges : MergesSource
  unsplittable_tokens : Option (List String)
  options : List (String × String)
deriving DecidableEq

/-- Modelled from the spec: the engine configuration returns every
constructor argument, the unsplittable-token field included. -/
def BytePairTokenizer.get_config (t : BytePairTokenizer) : BPEConfig :=
  { vocabulary := t.vocabulary
    merges := t.merges
    unsplittable_tokens := some t.unsplittable_tokens
    options := t.options }

/-- Construction-time errors: `valueError` is the configuration error of the
source (`raise ValueError(...)`), `typeError` the failure of a call that
passes the same keyword argument twice. -/
inductive TokError where
  | valueError (msg : String)
  | typeError (msg : String)
deriving DecidableEq

/-- Equality of construction results is decidable, so every concrete
scenario below evaluates. -/
instance exceptDecEq {ε α : Type} [DecidableEq ε] [DecidableEq α] :
    DecidableEq (Except ε α)
  | .error e1, .error e2 => decidable_of_iff (e1 = e2) (by simp)
  | .error _, .ok _ => .isFalse (by simp)
  | .ok _, .error _ => .isFalse (by simp)
  | .ok a1, .ok a2 => decidable_of_iff (a1 = a2) (by simp)

/-- The single-quote character, written by code point. -/
def singleQuote : String := (Char.ofNat 39).toString

/-- The backquote character, written by code point. -/
def backquote : String := (Char.ofNat 96).toString

/-- The error message of the source constructor, built exactly as its
f-string: Cannot find token `<token>` in the provided `vocabulary`.
Please provide it in your `vocabulary` or use a pretrained `vocabulary`
name (the token is wrapped in backquotes and single quotes). -/
def missingTokenMessage (endToken : String) : String :=
  "Cannot find token " ++ backquote ++ singleQuote ++ endToken ++ singleQuote ++
    backquote ++ " in the provided " ++ backquote ++ "vocabulary" ++ backquote ++
    ". Please provide " ++ backquote ++ singleQuote ++ endToken ++ singleQuote ++
    backquote ++ " in your " ++ backquote ++ "vocabulary" ++ backquote ++
    " or use a pretrained " ++ backquote ++ "vocabulary" ++ backquote ++ " name."

/-- The extra keyword arguments (`**kwargs`) a caller may pass to the
wrapper constructor: possibly an own `unsplittable_tokens` value, and
engine-level options forwarded unchanged. -/
structure Kwargs where
  unsplittable_tokens : Option (List String) := none
  options : List (String × String) := []
deriving DecidableEq

/-- The wrapper: the constructed engine plus the derived special-token-id
fields of the source (`end_token_id`, `start_token_id`, `pad_token_id`).
The structure is immutable; the source never reassigns these fields after
construction. -/
structure GPTNeoXTokenizer where
  engine : BytePairTokenizer
  end_token_id : Nat
  start_token_id : Nat
  pad_token_id : Nat
deriving DecidableEq

/-- The required special token of the GPTNeoX variant (source, line 53). -/
def GPTNeoXTokenizer.endToken : String := "<|endoftext|>"

/-- The constructor, translated from `GPTNeoXTokenizer.__init__`.
`super().__init__(vocabulary=..., merges=..., unsplittable_tokens=[end_token],
**kwargs)` passes `unsplittable_tokens` explicitly, so a caller-supplied
`unsplittable_tokens` keyword collides with it and the call fails with a
TypeError before any engine is built.  The source then checks
`end_token not in self.get_vocabulary()` and raises a ValueError when the
token is absent; for the modelled engine, membership of a token among the
vocabulary keys is exactly success of `token_to_id` on it, so the check and
the subsequent `self.token_to_id(end_token)` are one lookup here.  On
success the source sets `end_token_id` to that id, aliases
`start_token_id` to the same id, and sets `pad_token_id = 0`. -/
def GPTNeoXTokenizer.init (vocabulary : VocabSource) (merges : MergesSource)
    (kwargs : Kwargs) : Except TokError GPTNeoXTokenizer :=
  match kwargs.unsplittable_tokens with
  | some _ =>
    .error (.typeError "got multiple values for keyword argument unsplittable_tokens")
  | none =>
    let engine : BytePairTokenizer :=
      { vocabulary := vocabulary
        merges := merges
        unsplittable_tokens := [GPTNeoXTokenizer.endToken]
        options := kwargs.options }
    match engine.token_to_id GPTNeoXTokenizer.endToken with
    | none => .error (.valueError (missingTokenMessage GPTNeoXTokenizer.endToken))
    | some i =>
      .ok { engine := engine
            end_token_id := i
            start_token_id := i
            pad_token_id := 0 }

/-- Translated from `GPTNeoXTokenizer.get_config`: take the configuration of
the superclass and delete the `unsplittable_tokens` entry from it. -/
def GPTNeoXTokenizer.get_config (t : GPTNeoXTokenizer) : BPEConfig :=
  let config := t.engine.get_config
  { config with unsplittable_tokens := none }

/-- Tokenization is delegated unchanged to the engine (spec section 4.1). -/
def GPTNeoXTokenizer.tokenize (t : GPTNeoXTokenizer) (text : String) : List Nat :=
  t.engine.tokenize text

/-- Modelled from the spec: reconstruction calls the constructor with the
entries of the stored configuration record as keyword arguments
(spec section 4.1, GetConfiguration; section 8, property 3). -/
def GPTNeoXTokenizer.from_config (config : BPEConfig) : Except TokError GPTNeoXTokenizer :=
  GPTNeoXTokenizer.init config.vocabulary config.merges
    { unsplittable_tokens := config.unsplittable_tokens
      options := config.options }

/-- Shape of a successful construction: no caller-supplied unsplittable
tokens, the engine built from the arguments with exactly the variant token,
and the three id fields as the source sets them. -/
theorem GPTNeoXTokenizer.init_ok_iff (v : VocabSource) (m : MergesSource)
    (k : Kwargs) (t : GPTNeoXTokenizer) :
    GPTNeoXTokenizer.init v m k = .ok t ↔
      k.unsplittable_tokens = none ∧
      t.engine = { vocabulary := v
                   merges := m
                   unsplittable_tokens := [GPTNeoXTokenizer.endToken]
                   options := k.options } ∧
      List.lookup GPTNeoXTokenizer.endToken v.resolve = some t.end_token_id ∧
      t.start_token_id = t.end_token_id ∧
      t.pad_token_id = 0 := by
  cases hk : k.unsplittable_tokens with
  | some l => simp [GPTNeoXTokenizer.init, hk]
  | none =>
    cases hv : List.lookup GPTNeoXTokenizer.endToken v.resolve with
    | none =>
      simp [GPTNeoXTokenizer.init, hk, BytePairTokenizer.token_to_id,
            BytePairTokenizer.get_vocabulary, hv]
    | some i =>
      obtain ⟨e, te, ts, tp⟩ := t
      simp only [GPTNeoXTokenizer.init, hk, BytePairTokenizer.token_to_id,
                 BytePairTokenizer.get_vocabulary, hv, Except.ok.injEq,
                 GPTNeoXTokenizer.mk.injEq]
      constructor
      · rintro ⟨he, hte, hts, htp⟩
        exact ⟨trivial, he.symm, by simp [hv, hte], by rw [← hts, ← hte], htp.symm⟩
      · rintro ⟨-, he, hte, hts, htp⟩
        simp only [hv, Option.some.injEq] at hte
        exact ⟨he.symm, hte, by rw [hts, hte], htp.symm⟩

/-- C1: for every vocabulary source (in-memory mapping or file reference)
whose resolved mapping contains the required special token <|endoftext|>,
construction of the GPTNeoX tokenizer succeeds and the derived end_token_id
field equals the id obtained by a direct lookup of the token string in the
tokenizer vocabulary. -/
theorem gptneox_construct_ok_end_id_eq_lookup (v : VocabSource) (m : MergesSource)
    (opts : List (String × String)) (i : Nat)
    (h : List.lookup GPTNeoXTokenizer.endToken v.resolve = some i) :
    ∃ t : GPTNeoXTokenizer,
      GPTNeoXTokenizer.init v m { options := opts } = .ok t ∧
      t.end_token_id = i ∧
      t.engine.token_to_id GPTNeoXTokenizer.endToken = some t.end_token_id := by
  refine ⟨{ engine := { vocabulary := v
                        merges := m
                        unsplittable_tokens := [GPTNeoXTokenizer.endToken]
                        options := opts }
            end_token_id := i
            start_token_id := i
            pad_token_id := 0 }, ?_, rfl, ?_⟩
  · rw [GPTNeoXTokenizer.init_ok_iff]
    exact ⟨rfl, rfl, h, rfl, rfl⟩
  · simpa [BytePairTokenizer.token_to_id, BytePairTokenizer.get_vocabulary] using h

/-- Witness for C1 at a concrete in-memory vocabulary. -/
theorem gptneox_construct_ok_end_id_eq_lookup_witness :
    List.lookup GPTNeoXTokenizer.endToken
        (VocabSource.mem [("<|endoftext|>", 2)]).resolve = some 2 ∧
    ∃ t : GPTNeoXTokenizer,
      GPTNeoXTokenizer.init (VocabSource.mem [("<|endoftext|>", 2)])
          (MergesSource.mem []) { options := [] } = .ok t ∧
      t.end_token_id = 2 ∧
      t.engine.token_to_id GPTNeoXTokenizer.endToken = some t.end_token_id :=
  ⟨by decide, gptneox_construct_ok_end_id_eq_lookup _ _ _ _ (by decide)⟩

set_option maxRecDepth 8192 in
/-- C2: for every vocabulary whose resolved mapping lacks <|endoftext|>,
construction fails with the configuration error (the ValueError of the
source), the message contains the missing token string and the remediation
advice to use a pretrained vocabulary, and no tokenizer value is produced:
the result is an error, not a tokenizer. -/
theorem gptneox_missing_token_fails (v : VocabSource) (m : MergesSource)
    (opts : List (String × String))
    (h : List.lookup GPTNeoXTokenizer.endToken v.resolve = none) :
    GPTNeoXTokenizer.init v m { options := opts } =
      .error (.valueError (missingTokenMessage GPTNeoXTokenizer.endToken)) ∧
    GPTNeoXTokenizer.endToken.toList <:+:
      (missingTokenMessage GPTNeoXTokenizer.endToken).toList ∧
    "use a pretrained".toList <:+:
      (missingTokenMessage GPTNeoXTokenizer.endToken).toList := by
  refine ⟨?_, by decide, by decide⟩
  simp [GPTNeoXTokenizer.init, BytePairTokenizer.token_to_id,
        BytePairTokenizer.get_vocabulary, h]

/-- Witness for C2 at a concrete vocabulary missing the token. -/
theorem gptneox_missing_token_fails_witness :
    List.lookup GPTNeoXTokenizer.endToken
        (VocabSource.mem [("[PAD]", 0), ("[UNK]", 1)]).resolve = none ∧
    (GPTNeoXTokenizer.init (VocabSource.mem [("[PAD]", 0), ("[UNK]", 1)])
        (MergesSource.mem []) { options := [] } =
      .error (.valueError (missingTokenMessage GPTNeoXTokenizer.endToken)) ∧
    GPTNeoXTokenizer.endToken.toList <:+:
      (missingTokenMessage GPTNeoXTokenizer.endToken).toList ∧
    "use a pretrained".toList <:+:
      (missingTokenMessage GPTNeoXTokenizer.endToken).toList) :=
  ⟨by decide, gptneox_missing_token_fails _ _ _ (by decide)⟩

/-- C3 as stated fails on the code: pad_token_id does not resolve to a
vocabulary lookup of a pad-token string.  With [PAD] mapped to 5 the
construction succeeds and pad_token_id is 0, not the looked-up 5. -/
theorem pad_token_id_lookup_cex :
    GPTNeoXTokenizer.init (.mem [("<|endoftext|>", 0), ("[PAD]", 5)]) (.mem []) {} =
      .ok { engine := { vocabulary := .mem [("<|endoftext|>", 0), ("[PAD]", 5)]
                        merges := .mem []
                        unsplittable_tokens := ["<|endoftext|>"]
                        options := [] }
            end_token_id := 0
            start_token_id := 0
            pad_token_id := 0 } ∧
    List.lookup "[PAD]"
      (VocabSource.mem [("<|endoftext|>", 0), ("[PAD]", 5)]).resolve = some 5 ∧
    (0 : Nat) ≠ 5 := by decide

/-- C3 amended: after any successful construction the fields are fixed by
the constructor alone: start_token_id and end_token_id both equal the direct
vocabulary lookup of <|endoftext|>, while pad_token_id is the constant 0,
not a vocabulary lookup; the structure is immutable, no operation of the
model rewrites any of the three fields. -/
theorem special_ids_fixed_by_construction (v : VocabSource) (m : MergesSource)
    (k : Kwargs) (t : GPTNeoXTokenizer)
    (h : GPTNeoXTokenizer.init v m k = .ok t) :
    t.engine.token_to_id GPTNeoXTokenizer.endToken = some t.end_token_id ∧
    t.engine.token_to_id GPTNeoXTokenizer.endToken = some t.start_token_id ∧
    t.pad_token_id = 0 := by
  rw [GPTNeoXTokenizer.init_ok_iff] at h
  obtain ⟨-, he, hl, hs, hp⟩ := h
  refine ⟨?_, ?_, hp⟩ <;>
    simp [BytePairTokenizer.token_to_id, BytePairTokenizer.get_vocabulary,
          he, hl, hs]

/-- Witness for the amended C3 at a concrete construction. -/
theorem special_ids_fixed_by_construction_witness :
    GPTNeoXTokenizer.init (.mem [("<|endoftext|>", 3)]) (.mem []) {} =
      .ok { engine := { vocabulary := .mem [("<|endoftext|>", 3)]
                        merges := .mem []
                        unsplittable_tokens := ["<|endoftext|>"]
                        options := [] }
            end_token_id := 3
            start_token_id := 3
            pad_token_id := 0 } ∧
    ({ engine := { vocabulary := .mem [("<|endoftext|>", 3)]
                   merges := .mem []
                   unsplittable_tokens := ["<|endoftext|>"]
                   options := [] }
       end_token_id := 3
       start_token_id := 3
       pad_token_id := 0 : GPTNeoXTokenizer }.engine.token_to_id
        GPTNeoXTokenizer.endToken = some 3 ∧
     ({ engine := { vocabulary := .mem [("<|endoftext|>", 3)]
                    merges := .mem []
                    unsplittable_tokens := ["<|endoftext|>"]
                    options := [] }
        end_token_id := 3
        start_token_id := 3
        pad_token_id := 0 : GPTNeoXTokenizer }).engine.token_to_id
        GPTNeoXTokenizer.endToken = some 3 ∧
     ({ engine := { vocabulary := .mem [("<|endoftext|>", 3)]
                    merges := .mem []
                    unsplittable_tokens := ["<|endoftext|>"]
                    options := [] }
        end_token_id := 3
        start_token_id := 3
        pad_token_id := 0 : GPTNeoXTokenizer }).pad_token_id = 0) :=
  ⟨rfl,
   special_ids_fixed_by_construction (.mem [("<|endoftext|>", 3)]) (.mem []) {}
     { engine := { vocabulary := .mem [("<|endoftext|>", 3)]
                   merges := .mem []
                   unsplittable_tokens := ["<|endoftext|>"]
                   options := [] }
       end_token_id := 3
       start_token_id := 3
       pad_token_id := 0 } rfl⟩

/-- C7: the concrete scenario of the spec: with the vocabulary mapping
[PAD] to 0, [UNK] to 1, <|endoftext|> to 2, a to 3, b to 4, construction
succeeds with end_token_id 2, start_token_id 2 and pad_token_id 0. -/
theorem gptneox_concrete_scenario :
    ∃ t : GPTNeoXTokenizer,
      GPTNeoXTokenizer.init
        (.mem [("[PAD]", 0), ("[UNK]", 1), ("<|endoftext|>", 2), ("a", 3), ("b", 4)])
        (.mem ["a b"]) {} = .ok t ∧
      t.end_token_id = 2 ∧ t.start_token_id = 2 ∧ t.pad_token_id = 0 :=
  ⟨_, rfl, rfl, rfl, rfl⟩

/-- C8: every successfully constructed GPTNeoX tokenizer holds the same
integer id in start_token_id and end_token_id, the intentional aliasing of
the single token <|endoftext|> for both roles. -/
theorem gptneox_start_id_eq_end_id (v : VocabSource) (m : MergesSource)
    (k : Kwargs) (t : GPTNeoXTokenizer)
    (h : GPTNeoXTokenizer.init v m k = .ok t) :
    t.start_token_id = t.end_token_id := by
  rw [GPTNeoXTokenizer.init_ok_iff] at h
  exact h.2.2.2.1

/-- Witness for C8 at a concrete construction. -/
theorem gptneox_start_id_eq_end_id_witness :
    GPTNeoXTokenizer.init (.mem [("<|endoftext|>", 7), ("a", 1)]) (.mem []) {} =
      .ok { engine := { vocabulary := .mem [("<|endoftext|>", 7), ("a", 1)]
                        merges := .mem []
                        unsplittable_tokens := ["<|endoftext|>"]
                        options := [] }
            end_token_id := 7
            start_token_id := 7
            pad_token_id := 0 } ∧
    ({ engine := { vocabulary := .mem [("<|endoftext|>", 7), ("a", 1)]
                   merges := .mem []
                   unsplittable_tokens := ["<|endoftext|>"]
                   options := [] }
       end_token_id := 7
       start_token_id := 7
       pad_token_id := 0 : GPTNeoXTokenizer }).start_token_id =
      ({ engine := { vocabulary := .mem [("<|endoftext|>", 7), ("a", 1)]
                     merges := .mem []
                     unsplittable_tokens := ["<|endoftext|>"]
                     options := [] }
         end_token_id := 7
         start_token_id := 7
         pad_token_id := 0 : GPTNeoXTokenizer }).end_token_id :=
  ⟨rfl,
   gptneox_start_id_eq_end_id (.mem [("<|endoftext|>", 7), ("a", 1)]) (.mem []) {}
     { engine := { vocabulary := .mem [("<|endoftext|>", 7), ("a", 1)]
                   merges := .mem []
                   unsplittable_tokens := ["<|endoftext|>"]
                   options := [] }
       end_token_id := 7
       start_token_id := 7
       pad_token_id := 0 } rfl⟩

/-- C10: pad_token_id is the constant 0 regardless of the vocabulary: the
constructor performs no pad-token lookup and no pad-token presence check,
so whenever <|endoftext|> is present construction succeeds with
pad_token_id equal to 0, also when the vocabulary has no [PAD] entry or
maps [PAD] to a nonzero id. -/
theorem gptneox_pad_id_constant_zero (v : VocabSource) (m : MergesSource)
    (opts : List (String × String)) (i : Nat)
    (h : List.lookup GPTNeoXTokenizer.endToken v.resolve = some i) :
    ∃ t : GPTNeoXTokenizer,
      GPTNeoXTokenizer.init v m { options := opts } = .ok t ∧
      t.pad_token_id = 0 := by
  refine ⟨{ engine := { vocabulary := v
                        merges := m
                        unsplittable_tokens := [GPTNeoXTokenizer.endToken]
                        options := opts }
            end_token_id := i
            start_token_id := i
            pad_token_id := 0 }, ?_, rfl⟩
  rw [GPTNeoXTokenizer.init_ok_iff]
  exact ⟨rfl, rfl, h, rfl, rfl⟩

/-- Witness for C10 at a vocabulary that maps [PAD] to a nonzero id and at
one with no [PAD] entry the same theorem applies; here [PAD] is 9 and
pad_token_id still comes out 0. -/
theorem gptneox_pad_id_constant_zero_witness :
    List.lookup GPTNeoXTokenizer.endToken
        (VocabSource.mem [("<|endoftext|>", 1), ("[PAD]", 9)]).resolve = some 1 ∧
    ∃ t : GPTNeoXTokenizer,
      GPTNeoXTokenizer.init (VocabSource.mem [("<|endoftext|>", 1), ("[PAD]", 9)])
          (MergesSource.mem []) { options := [] } = .ok t ∧
      t.pad_token_id = 0 :=
  ⟨by decide,
   gptneox_pad_id_constant_zero (.mem [("<|endoftext|>", 1), ("[PAD]", 9)])
     (.mem []) [] 1 (by decide)⟩

/-- C4: reconstruction from the retrieved configuration yields a tokenizer
whose derived special-token-id fields equal the original ones and whose
tokenization output equals the original output on every input text; in
this model the reconstruction is the original tokenizer itself. -/
theorem gptneox_config_round_trip (v : VocabSource) (m : MergesSource)
    (k : Kwargs) (t : GPTNeoXTokenizer)
    (h : GPTNeoXTokenizer.init v m k = .ok t) :
    ∃ t2 : GPTNeoXTokenizer,
      GPTNeoXTokenizer.from_config t.get_config = .ok t2 ∧
      t2.start_token_id = t.start_token_id ∧
      t2.end_token_id = t.end_token_id ∧
      t2.pad_token_id = t.pad_token_id ∧
      ∀ text, t2.tokenize text = t.tokenize text := by
  refine ⟨t, ?_, rfl, rfl, rfl, fun _ => rfl⟩
  rw [GPTNeoXTokenizer.init_ok_iff] at h
  obtain ⟨hk, he, hl, hs, hp⟩ := h
  unfold GPTNeoXTokenizer.from_config GPTNeoXTokenizer.get_config
  rw [GPTNeoXTokenizer.init_ok_iff]
  simp [BytePairTokenizer.get_config, he, hl, hs, hp]

/-- Witness for C4 at a concrete construction. -/
theorem gptneox_config_round_trip_witness :
    GPTNeoXTokenizer.init (.mem [("<|endoftext|>", 4), ("c", 0)]) (.mem []) {} =
      .ok { engine := { vocabulary := .mem [("<|endoftext|>", 4), ("c", 0)]
                        merges := .mem []
                        unsplittable_tokens := ["<|endoftext|>"]
                        options := [] }
            end_token_id := 4
            start_token_id := 4
            pad_token_id := 0 } ∧
    (∃ t2 : GPTNeoXTokenizer,
      GPTNeoXTokenizer.from_config
          ({ engine := { vocabulary := .mem [("<|endoftext|>", 4), ("c", 0)]
                         merges := .mem []
                         unsplittable_tokens := ["<|endoftext|>"]
                         options := [] }
             end_token_id := 4
             start_token_id := 4
             pad_token_id := 0 : GPTNeoXTokenizer }).get_config = .ok t2 ∧
      t2.start_token_id = 4 ∧
      t2.end_token_id = 4 ∧
      t2.pad_token_id = 0 ∧
      ∀ text, t2.tokenize text =
        ({ engine := { vocabulary := .mem [("<|endoftext|>", 4), ("c", 0)]
                       merges := .mem []
                       unsplittable_tokens := ["<|endoftext|>"]
                       options := [] }
           end_token_id := 4
           start_token_id := 4
           pad_token_id := 0 : GPTNeoXTokenizer }).tokenize text) :=
  ⟨rfl,
   gptneox_config_round_trip (.mem [("<|endoftext|>", 4), ("c", 0)]) (.mem []) {}
     { engine := { vocabulary := .mem [("<|endoftext|>", 4), ("c", 0)]
                   merges := .mem []
                   unsplittable_tokens := ["<|endoftext|>"]
                   options := [] }
       end_token_id := 4
       start_token_id := 4
       pad_token_id := 0 } rfl⟩

/-- C5: the configuration of the wrapper never carries the
unsplittable-token field, while the vocabulary reference, the merges
reference and the engine options of the engine configuration pass through
unchanged; reconstructing from it re-derives an unsplittable set identical
to the original one. -/
theorem gptneox_get_config_frame (v : VocabSource) (m : MergesSource)
    (k : Kwargs) (t : GPTNeoXTokenizer)
    (h : GPTNeoXTokenizer.init v m k = .ok t) :
    t.get_config.unsplittable_tokens = none ∧
    t.get_config.vocabulary = t.engine.get_config.vocabulary ∧
    t.get_config.merges = t.engine.get_config.merges ∧
    t.get_config.options = t.engine.get_config.options ∧
    ∃ t2 : GPTNeoXTokenizer,
      GPTNeoXTokenizer.from_config t.get_config = .ok t2 ∧
      t2.engine.unsplittable_tokens = t.engine.unsplittable_tokens := by
  refine ⟨rfl, rfl, rfl, rfl, t, ?_, rfl⟩
  rw [GPTNeoXTokenizer.init_ok_iff] at h
  obtain ⟨hk, he, hl, hs, hp⟩ := h
  unfold GPTNeoXTokenizer.from_config GPTNeoXTokenizer.get_config
  rw [GPTNeoXTokenizer.init_ok_iff]
  simp [BytePairTokenizer.get_config, he, hl, hs, hp]

/-- Witness for C5 at a concrete construction. -/
theorem gptneox_get_config_frame_witness :
    GPTNeoXTokenizer.init (.mem [("<|endoftext|>", 6)]) (.mem ["a b"]) {} =
      .ok { engine := { vocabulary := .mem [("<|endoftext|>", 6)]
                        merges := .mem ["a b"]
                        unsplittable_tokens := ["<|endoftext|>"]
                        options := [] }
            end_token_id := 6
            start_token_id := 6
            pad_token_id := 0 } ∧
    (({ engine := { vocabulary := .mem [("<|endoftext|>", 6)]
                    merges := .mem ["a b"]
                    unsplittable_tokens := ["<|endoftext|>"]
                    options := [] }
        end_token_id := 6
        start_token_id := 6
        pad_token_id := 0 : GPTNeoXTokenizer }).get_config.unsplittable_tokens = none ∧
     ({ engine := { vocabulary := .mem [("<|endoftext|>", 6)]
                    merges := .mem ["a b"]
                    unsplittable_tokens := ["<|endoftext|>"]
                    options := [] }
        end_token_id := 6
        start_token_id := 6
        pad_token_id := 0 : GPTNeoXTokenizer }).get_config.vocabulary =
       ({ engine := { vocabulary := .mem [("<|endoftext|>", 6)]
                      merges := .mem ["a b"]
                      unsplittable_tokens := ["<|endoftext|>"]
                      options := [] }
          end_token_id := 6
          start_token_id := 6
          pad_token_id := 0 : GPTNeoXTokenizer }).engine.get_config.vocabulary ∧
     ({ engine := { vocabulary := .mem [("<|endoftext|>", 6)]
                    merges := .mem ["a b"]
                    unsplittable_tokens := ["<|endoftext|>"]
                    options := [] }
        end_token_id := 6
        start_token_id := 6
        pad_token_id := 0 : GPTNeoXTokenizer }).get_config.merges =
       ({ engine := { vocabulary := .mem [("<|endoftext|>", 6)]
                      merges := .mem ["a b"]
                      unsplittable_tokens := ["<|endoftext|>"]
                      options := [] }
          end_token_id := 6
          start_token_id := 6
          pad_token_id := 0 : GPTNeoXTokenizer }).engine.get_config.merges ∧
     ({ engine := { vocabulary := .mem [("<|endoftext|>", 6)]
                    merges := .mem ["a b"]
                    unsplittable_tokens := ["<|endoftext|>"]
                    options := [] }
        end_token_id := 6
        start_token_id := 6
        pad_token_id := 0 : GPTNeoXTokenizer }).get_config.options =
       ({ engine := { vocabulary := .mem [("<|endoftext|>", 6)]
                      merges := .mem ["a b"]
                      unsplittable_tokens := ["<|endoftext|>"]
                      options := [] }
          end_token_id := 6
          start_token_id := 6
          pad_token_id := 0 : GPTNeoXTokenizer }).engine.get_config.options ∧
     ∃ t2 : GPTNeoXTokenizer,
       GPTNeoXTokenizer.from_config
           ({ engine := { vocabulary := .mem [("<|endoftext|>", 6)]
                          merges := .mem ["a b"]
                          unsplittable_tokens := ["<|endoftext|>"]
                          options := [] }
              end_token_id := 6
              start_token_id := 6
              pad_token_id := 0 : GPTNeoXTokenizer }).get_config = .ok t2 ∧
       t2.engine.unsplittable_tokens =
         ({ engine := { vocabulary := .mem [("<|endoftext|>", 6)]
                        merges := .mem ["a b"]
                        unsplittable_tokens := ["<|endoftext|>"]
                        options := [] }
            end_token_id := 6
            start_token_id := 6
            pad_token_id := 0 : GPTNeoXTokenizer }).engine.unsplittable_tokens) :=
  ⟨rfl,
   gptneox_get_config_frame (.mem [("<|endoftext|>", 6)]) (.mem ["a b"]) {}
     { engine := { vocabulary := .mem [("<|endoftext|>", 6)]
                   merges := .mem ["a b"]
                   unsplittable_tokens := ["<|endoftext|>"]
                   options := [] }
       end_token_id := 6
       start_token_id := 6
       pad_token_id := 0 } rfl⟩

/-- C6 as stated fails on the code: a caller-supplied unsplittable-token
value is not unioned into the engine set; the constructor already passes
the keyword explicitly, so the call with caller tokens ["X"] fails on the
duplicate keyword argument and no engine receives any union. -/
theorem gptneox_caller_unsplittable_union_cex :
    GPTNeoXTokenizer.init (.mem [("<|endoftext|>", 0), ("X", 1)]) (.mem [])
        { unsplittable_tokens := some ["X"], options := [] } =
      .error (.typeError
        "got multiple values for keyword argument unsplittable_tokens") := rfl

/-- C6 amended: the wrapper forwards the vocabulary and the merges to the
engine and passes exactly the variant special tokens, the duplicate-free
list holding <|endoftext|>, as the unsplittable set; a caller-supplied
unsplittable-token argument makes the construction call fail with a
TypeError and is never unioned. -/
theorem gptneox_engine_gets_exact_variant_tokens (v : VocabSource)
    (m : MergesSource) (k : Kwargs) :
    (∀ t : GPTNeoXTokenizer, GPTNeoXTokenizer.init v m k = .ok t →
      t.engine.vocabulary = v ∧ t.engine.merges = m ∧
      t.engine.unsplittable_tokens = [GPTNeoXTokenizer.endToken] ∧
      t.engine.unsplittable_tokens.Nodup) ∧
    (∀ l, k.unsplittable_tokens = some l →
      GPTNeoXTokenizer.init v m k =
        .error (.typeError
          "got multiple values for keyword argument unsplittable_tokens")) := by
  constructor
  · intro t h
    rw [GPTNeoXTokenizer.init_ok_iff] at h
    obtain ⟨-, he, -, -, -⟩ := h
    refine ⟨?_, ?_, ?_, ?_⟩ <;> simp [he]
  · intro l hl
    simp [GPTNeoXTokenizer.init, hl]

/-- Witness for the amended C6 at a concrete successful construction. -/
theorem gptneox_engine_gets_exact_variant_tokens_witness :
    GPTNeoXTokenizer.init (.mem [("<|endoftext|>", 5)]) (.mem ["a b"]) {} =
      .ok { engine := { vocabulary := .mem [("<|endoftext|>", 5)]
                        merges := .mem ["a b"]
                        unsplittable_tokens := ["<|endoftext|>"]
                        options := [] }
            end_token_id := 5
            start_token_id := 5
            pad_token_id := 0 } ∧
    (({ engine := { vocabulary := .mem [("<|endoftext|>", 5)]
                    merges := .mem ["a b"]
                    unsplittable_tokens := ["<|endoftext|>"]
                    options := [] }
        end_token_id := 5
        start_token_id := 5
        pad_token_id := 0 : GPTNeoXTokenizer }).engine.vocabulary =
        .mem [("<|endoftext|>", 5)] ∧
     ({ engine := { vocabulary := .mem [("<|endoftext|>", 5)]
                    merges := .mem ["a b"]
                    unsplittable_tokens := ["<|endoftext|>"]
                    options := [] }
        end_token_id := 5
        start_token_id := 5
        pad_token_id := 0 : GPTNeoXTokenizer }).engine.merges = .mem ["a b"] ∧
     ({ engine := { vocabulary := .mem [("<|endoftext|>", 5)]
                    merges := .mem ["a b"]
                    unsplittable_tokens := ["<|endoftext|>"]
                    options := [] }
        end_token_id := 5
        start_token_id := 5
        pad_token_id := 0 : GPTNeoXTokenizer }).engine.unsplittable_tokens =
        [GPTNeoXTokenizer.endToken] ∧
     ({ engine := { vocabulary := .mem [("<|endoftext|>", 5)]
                    merges := .mem ["a b"]
                    unsplittable_tokens := ["<|endoftext|>"]
                    options := [] }
        end_token_id := 5
        start_token_id := 5
        pad_token_id := 0 : GPTNeoXTokenizer }).engine.unsplittable_tokens.Nodup) :=
  ⟨rfl,
   (gptneox_engine_gets_exact_variant_tokens (.mem [("<|endoftext|>", 5)])
       (.mem ["a b"]) {}).1
     { engine := { vocabulary := .mem [("<|endoftext|>", 5)]
                   merges := .mem ["a b"]
                   unsplittable_tokens := ["<|endoftext|>"]
                   options := [] }
       end_token_id := 5
       start_token_id := 5
       pad_token_id := 0 } rfl⟩

/-- Engine tokenization depends only on the resolved vocabulary, the
resolved merge rules and the unsplittable set: no other engine state
enters the computation. -/
theorem BytePairTokenizer.tokenize_resolved_congr (e1 e2 : BytePairTokenizer)
    (hv : e1.get_vocabulary = e2.get_vocabulary)
    (hm : e1.mergeRules = e2.mergeRules)
    (hu : e1.unsplittable_tokens = e2.unsplittable_tokens)
    (text : String) :
    e1.tokenize text = e2.tokenize text := by
  have ht : e1.token_to_id = e2.token_to_id := by
    funext tok
    simp [BytePairTokenizer.token_to_id, hv]
  unfold BytePairTokenizer.tokenize BytePairTokenizer.tokenizeWord
  simp [ht, BytePairTokenizer.token_to_id, hv, hm, hu]

/-- C9: tokenization is deterministic with no hidden mutable state: any two
successfully constructed tokenizers over the same resolved vocabulary and
the same resolved merges produce the same id sequence on every input text,
so repeated invocations on one (vocabulary, merges, text) triple agree. -/
theorem gptneox_tokenize_deterministic (v1 v2 : VocabSource)
    (m1 m2 : MergesSource) (k1 k2 : Kwargs) (t1 t2 : GPTNeoXTokenizer)
    (h1 : GPTNeoXTokenizer.init v1 m1 k1 = .ok t1)
    (h2 : GPTNeoXTokenizer.init v2 m2 k2 = .ok t2)
    (hv : v1.resolve = v2.resolve) (hm : m1.resolve = m2.resolve)
    (text : String) :
    t1.tokenize text = t2.tokenize text := by
  rw [GPTNeoXTokenizer.init_ok_iff] at h1 h2
  obtain ⟨-, he1, -, -, -⟩ := h1
  obtain ⟨-, he2, -, -, -⟩ := h2
  unfold GPTNeoXTokenizer.tokenize
  apply BytePairTokenizer.tokenize_resolved_congr
  · simp [BytePairTokenizer.get_vocabulary, he1, he2, hv]
  · simp [BytePairTokenizer.mergeRules, he1, he2, hm]
  · simp [he1, he2]

/-- Witness for C9: one tokenizer built from an in-memory vocabulary, the
other from a file reference resolving to the same mapping, agree on a
concrete text. -/
theorem gptneox_tokenize_deterministic_witness :
    GPTNeoXTokenizer.init (.mem [("<|endoftext|>", 0), ("a", 1)]) (.mem []) {} =
      .ok { engine := { vocabulary := .mem [("<|endoftext|>", 0), ("a", 1)]
                        merges := .mem []
                        unsplittable_tokens := ["<|endoftext|>"]
                        options := [] }
            end_token_id := 0
            start_token_id := 0
            pad_token_id := 0 } ∧
    GPTNeoXTokenizer.init (.file "vocab.json" [("<|endoftext|>", 0), ("a", 1)])
        (.file "merges.txt" []) {} =
      .ok { engine := { vocabulary := .file "vocab.json" [("<|endoftext|>", 0), ("a", 1)]
                        merges := .file "merges.txt" []
                        unsplittable_tokens := ["<|endoftext|>"]
                        options := [] }
            end_token_id := 0
            start_token_id := 0
            pad_token_id := 0 } ∧
    (VocabSource.mem [("<|endoftext|>", 0), ("a", 1)]).resolve =
      (VocabSource.file "vocab.json" [("<|endoftext|>", 0), ("a", 1)]).resolve ∧
    (MergesSource.mem []).resolve = (MergesSource.file "merges.txt" []).resolve ∧
    ({ engine := { vocabulary := .mem [("<|endoftext|>", 0), ("a", 1)]
                   merges := .mem []
                   unsplittable_tokens := ["<|endoftext|>"]
                   options := [] }
       end_token_id := 0
       start_token_id := 0
       pad_token_id := 0 : GPTNeoXTokenizer }).tokenize "a <|endoftext|>" =
      ({ engine := { vocabulary := .file "vocab.json" [("<|endoftext|>", 0), ("a", 1)]
                     merges := .file "merges.txt" []
                     unsplittable_tokens := ["<|endoftext|>"]
                     options := [] }
         end_token_id := 0
         start_token_id := 0
         pad_token_id := 0 : GPTNeoXTokenizer }).tokenize "a <|endoftext|>" :=
  ⟨rfl, rfl, rfl, rfl,
   gptneox_tokenize_deterministic
     (.mem [("<|endoftext|>", 0), ("a", 1)])
     (.file "vocab.json" [("<|endoftext|>", 0), ("a", 1)])
     (.mem []) (.file "merges.txt" []) {} {}
     { engine := { vocabulary := .mem [("<|endoftext|>", 0), ("a", 1)]
                   merges := .mem []
                   unsplittable_tokens := ["<|endoftext|>"]
                   options := [] }
       end_token_id := 0
       start_token_id := 0
       pad_token_id := 0 }
     { engine := { vocabulary := .file "vocab.json" [("<|endoftext|>", 0), ("a", 1)]
                   merges := .file "merges.txt" []
                   unsplittable_tokens := ["<|endoftext|>"]
                   options := [] }
       end_token_id := 0
       start_token_id := 0
       pad_token_id := 0 } rfl rfl rfl rfl "a <|endoftext|>"⟩
